import Mathlib

/-!
Shallow embedding of the dual-persistence synchronization core of
Wandurlust-Traces: the `ApiService` facade (connectivity prober plus
persistence gateway) over a remote HTTP store and an on-device
`localStorage` mirror, together with theorems checking the specified
behaviour of `checkConnection`, `getEntries`, `createEntry`,
`deleteEntry` and `importEntries`.

Modelling conventions:
* Network effects are modelled by explicit oracle arguments describing
  the observable outcome of the single `fetch` each operation performs
  (reachable-and-ok with a payload, or any failure collapsed to one
  failure case, exactly as the surrounding `try`/`catch` collapses them).
* The mirror is the `localStorage` slot under the fixed key: `none` is
  an absent key, `some es` a stored serialized array `es`.
* `localStorage.setItem` can throw in the browser (e.g. quota); the one
  place where that possibility changes control flow in an interesting
  way is `createEntry`, whose `try`/`catch` spans both the remote call
  and the subsequent mirror write, so `createEntry` carries explicit
  fault flags for its (at most two) `setItem` call sites and returns in
  `Except`.  The other operations are stated with reliable mirror
  writes, matching the storage contract the specification assumes.
* All definitions are total Lean functions: a `try`/`catch` that
  swallows every error and returns a value is embedded as a total
  function, which is the "never throws to its caller" behaviour itself.
-/

namespace Wandurlust

/-- `Category` from `types.ts`: the fixed closed set of entry tags. -/
inductive Category where
  | Food
  | Shopping
  | Culture
  | Nature
  | Other
deriving DecidableEq, Repr

/-- `JournalEntry` from `types.ts`.  The JS `number` coordinates are
modelled as integers: no gateway operation computes with them, they are
carried opaquely, and only decidable equality of whole entries is used. -/
structure JournalEntry where
  id : String
  latitude : Int
  longitude : Int
  timestamp : String
  dateDisplay : String
  note : String
  category : Category
  photoUrl : Option String
deriving DecidableEq, Repr

/-- `Omit<JournalEntry, 'id'>`: the input type of `createEntry`. -/
structure EntryInput where
  latitude : Int
  longitude : Int
  timestamp : String
  dateDisplay : String
  note : String
  category : Category
  photoUrl : Option String
deriving DecidableEq, Repr

/-- The object spread `{ ...entry, id }` used by `createLocalEntry`:
an input together with an id makes a `JournalEntry`. -/
def mkEntry (entry : EntryInput) (id : String) : JournalEntry :=
  { id := id
    latitude := entry.latitude
    longitude := entry.longitude
    timestamp := entry.timestamp
    dateDisplay := entry.dateDisplay
    note := entry.note
    category := entry.category
    photoUrl := entry.photoUrl }

/-- The on-device mirror: the `localStorage` slot under `STORAGE_KEY`
(`luminary_journal_entries`).  `none` models an absent key, `some es`
a stored serialized array holding `es`. -/
abbrev Mirror := Option (List JournalEntry)

/-- `ApiService.getLocalEntries`:
`const stored = localStorage.getItem(STORAGE_KEY); return stored ? JSON.parse(stored) : [];` -/
def getLocalEntries : Mirror → List JournalEntry
  | some es => es
  | none => []

/-- The behaviour of the remote `/ping` endpoint as observed by a single
`fetch` inside `checkConnection`: the transport can error out at once,
the remote can fail to answer at all (so the scheduled abort fires and
the `fetch` rejects), or it answers after `ms` milliseconds with `ok`
recording whether the HTTP status was a success. -/
inductive PingBehavior where
  | transportError
  | noResponse
  | respondsAfter (ms : Nat) (ok : Bool)
deriving DecidableEq, Repr

/-- The abort deadline of `checkConnection`:
`setTimeout(() => controller.abort(), 1200)`. -/
def pingTimeoutMs : Nat := 1200

/-- `ApiService.checkConnection`: fetches `/ping` with an
`AbortController` armed at `pingTimeoutMs`; an answer arriving before
the deadline yields its `response.ok`, every other outcome (transport
error, abort on timeout, no answer at all) lands in the `catch` and
yields `false`. -/
def checkConnection : PingBehavior → Bool
  | PingBehavior.transportError => false
  | PingBehavior.noResponse => false
  | PingBehavior.respondsAfter ms ok => if ms < pingTimeoutMs then ok else false

/-- The outcome of the remote `GET /entries` as seen inside
`getEntries`: `some data` when the response is ok and its body parses
to `data`; `none` for a network error, a non-success status or a parse
failure (all of which throw into the same `catch`). -/
abbrev RemoteList := Option (List JournalEntry)

/-- `ApiService.getEntries`: on remote success stores the fetched
collection into the mirror and returns it; on any failure returns
`getLocalEntries` and leaves the mirror untouched.  The result pairs
the returned list with the mirror state after the call. -/
def getEntries (remote : RemoteList) (m : Mirror) :
    List JournalEntry × Mirror :=
  match remote with
  | some data => (data, some data)
  | none => (getLocalEntries m, m)

/-- A single `localStorage.setItem(STORAGE_KEY, JSON.stringify(es))`
call: overwrites the slot with `es`, or throws (modelled as
`Except.error ()`) when `fails` is set. -/
def setItem (fails : Bool) (es : List JournalEntry) : Except Unit Mirror :=
  if fails then Except.error () else Except.ok (some es)

/-- The local-origin id marker: ids minted offline are
`` `local-${Date.now()}` ``. -/
def localIdMarker : String := "local-"

/-- `ApiService.createLocalEntry`: mints
`{ ...entry, id: `local-${Date.now()}` }` (with `now` the value of
`Date.now()`), appends it to the current mirror contents and writes the
result back; a throwing write propagates out. -/
def createLocalEntry (entry : EntryInput) (now : Nat) (writeFails : Bool)
    (m : Mirror) : Except Unit (JournalEntry × Mirror) :=
  let newEntry := mkEntry entry (localIdMarker ++ toString now)
  match setItem writeFails (getLocalEntries m ++ [newEntry]) with
  | Except.ok stored => Except.ok (newEntry, stored)
  | Except.error e => Except.error e

/-- `ApiService.createEntry`: `remote = some saved` means the `POST`
returned ok and its body parsed to `saved`; `remote = none` is any
remote failure.  On remote success the mirror is read, `saved` appended
and the whole list written back (`firstWriteFails` tells whether that
write throws — if it does, control falls into the same `catch` as a
remote failure and `createLocalEntry` runs, its own write governed by
`secondWriteFails`).  On remote failure `createLocalEntry` runs
directly, its write governed by `firstWriteFails` (the first write the
call performs). -/
def createEntry (entry : EntryInput) (remote : Option JournalEntry)
    (now : Nat) (firstWriteFails secondWriteFails : Bool) (m : Mirror) :
    Except Unit (JournalEntry × Mirror) :=
  match remote with
  | some saved =>
    match setItem firstWriteFails (getLocalEntries m ++ [saved]) with
    | Except.ok stored => Except.ok (saved, stored)
    | Except.error _ => createLocalEntry entry now secondWriteFails m
  | none => createLocalEntry entry now firstWriteFails m

/-- `ApiService.deleteLocalEntry`: reads the mirror, keeps every entry
whose id differs from `id`, writes the result back. -/
def deleteLocalEntry (id : String) (m : Mirror) : Mirror :=
  some ((getLocalEntries m).filter (fun e => e.id != id))

/-- `ApiService.deleteEntry`: `remoteOk` records whether the remote
`DELETE` returned a success status.  On success the mirror is filtered
by id and written back; on any failure (network error or non-success
status) the `catch` runs `deleteLocalEntry`, which performs the very
same filter-and-write. -/
def deleteEntry (id : String) (remoteOk : Bool) (m : Mirror) : Mirror :=
  if remoteOk then some ((getLocalEntries m).filter (fun e => e.id != id))
  else deleteLocalEntry id m

/-- The two stores together, for stating frame conditions about the
remote: `remote` is the remote collection, `mirror` the device slot. -/
structure Store where
  remote : List JournalEntry
  mirror : Mirror
deriving DecidableEq, Repr

/-- `ApiService.importEntries`: a single
`localStorage.setItem(STORAGE_KEY, JSON.stringify(data))` — the mirror
is overwritten with `data` verbatim and no request is issued, so the
remote component of the state is untouched. -/
def importEntries (data : List JournalEntry) (s : Store) : Store :=
  { s with mirror := some data }

/-- A concrete entry input used by witnesses. -/
def sampleInput : EntryInput :=
  { latitude := 1
    longitude := 2
    timestamp := "2024-05-01T10:00:00Z"
    dateDisplay := "May 1, 2024"
    note := "park walk"
    category := Category.Nature
    photoUrl := none }

/-- A concrete entry with a chosen id, used by witnesses. -/
def sampleEntry (id : String) : JournalEntry := mkEntry sampleInput id

end Wandurlust

namespace Wandurlust

/-- C1: with a reachable remote returning the collection `E`,
`getEntries` returns `E` and afterwards the mirror holds exactly `E`,
whatever it held before (locally-minted entries included, since `m` is
arbitrary). -/
theorem getEntries_reachable_returns_and_overwrites
    (E : List JournalEntry) (m : Mirror) :
    getEntries (some E) m = (E, some E) ∧
    getLocalEntries (getEntries (some E) m).2 = E :=
  ⟨rfl, rfl⟩

/-- C2: with the remote unreachable and the mirror write succeeding,
`createEntry` mints the entry with id `local-` followed by the current
time, appends it to the mirror, persists that, and returns it; the
returned id carries the local-origin marker and the entry is present in
the persisted mirror. -/
theorem createEntry_offline_mints_local_entry
    (entry : EntryInput) (now : Nat) (m : Mirror) :
    createEntry entry none now false false m =
      Except.ok (mkEntry entry (localIdMarker ++ toString now),
        some (getLocalEntries m ++
          [mkEntry entry (localIdMarker ++ toString now)])) ∧
    (mkEntry entry (localIdMarker ++ toString now)).id =
      localIdMarker ++ toString now ∧
    mkEntry entry (localIdMarker ++ toString now) ∈
      getLocalEntries (some (getLocalEntries m ++
        [mkEntry entry (localIdMarker ++ toString now)])) := by
  refine ⟨rfl, rfl, ?_⟩
  simp [getLocalEntries]

/-- C3: the probe timeout is the fixed 1200 ms; `checkConnection` is
`true` exactly when the remote answers with a success status strictly
before the deadline; a transport error, a remote that never answers,
a failure status, or an answer at or past the deadline all give
`false`; the function is total, so no outcome throws to the caller. -/
theorem checkConnection_true_iff_timely_success :
    pingTimeoutMs = 1200 ∧
    (∀ b, checkConnection b = true ↔
      ∃ ms, ms < pingTimeoutMs ∧ b = PingBehavior.respondsAfter ms true) ∧
    checkConnection PingBehavior.noResponse = false ∧
    checkConnection PingBehavior.transportError = false ∧
    (∀ ms, checkConnection (PingBehavior.respondsAfter ms false) = false) ∧
    (∀ ms ok, checkConnection (PingBehavior.respondsAfter ms ok) =
      (decide (ms < pingTimeoutMs) && ok)) := by
  refine ⟨rfl, ?iff, rfl, rfl, ?fail, ?dl⟩
  · intro b
    cases b with
    | transportError => simp [checkConnection]
    | noResponse => simp [checkConnection]
    | respondsAfter ms ok =>
      by_cases h : ms < pingTimeoutMs <;> cases ok <;>
        simp [checkConnection, h]
  · intro ms
    by_cases h : ms < pingTimeoutMs <;> simp [checkConnection, h]
  · intro ms ok
    by_cases h : ms < pingTimeoutMs <;> cases ok <;>
      simp [checkConnection, h]

/-- C4: on any remote failure `getEntries` returns the current mirror
contents and leaves the mirror unchanged; an absent mirror and an empty
mirror both yield the empty sequence; the function is total, so the
failure never reaches the caller as an error. -/
theorem getEntries_failure_serves_mirror (m : Mirror) :
    getEntries none m = (getLocalEntries m, m) ∧
    getEntries none none = ([], none) ∧
    getEntries none (some []) = ([], some []) :=
  ⟨rfl, rfl, rfl⟩

/-- C5: on either remote outcome, when the mirror holds `id` at exactly
one position, `deleteEntry` removes that entry and keeps every other
entry in its original order; when no entry has that id the mirror is
written back unchanged; the function is total, so neither case raises. -/
theorem deleteEntry_removes_exactly_the_entry
    (id : String) (r : Bool) (pre post : List JournalEntry)
    (e : JournalEntry) (he : e.id = id)
    (hpre : ∀ x ∈ pre, x.id ≠ id) (hpost : ∀ x ∈ post, x.id ≠ id) :
    deleteEntry id r (some (pre ++ e :: post)) = some (pre ++ post) ∧
    ∀ l : List JournalEntry, (∀ x ∈ l, x.id ≠ id) →
      deleteEntry id r (some l) = some l := by
  have hkeep : ∀ l : List JournalEntry, (∀ x ∈ l, x.id ≠ id) →
      l.filter (fun x => x.id != id) = l := by
    intro l hl
    refine List.filter_eq_self.mpr ?_
    intro x hx
    simpa [bne_iff_ne] using hl x hx
  have hdrop : (e.id != id) = false := by simp [he]
  constructor
  · cases r <;>
      simp [deleteEntry, deleteLocalEntry, getLocalEntries,
        List.filter_append, List.filter_cons, hdrop,
        hkeep pre hpre, hkeep post hpost]
  · intro l hl
    cases r <;>
      simp [deleteEntry, deleteLocalEntry, getLocalEntries, hkeep l hl]

/-- Witness for C5 at a concrete mirror `[a-entry, b-entry]`. -/
theorem deleteEntry_removes_exactly_the_entry_witness :
    (sampleEntry "a").id = "a" ∧
    deleteEntry "a" true (some ([] ++ sampleEntry "a" :: [sampleEntry "b"])) =
      some ([] ++ [sampleEntry "b"]) :=
  ⟨rfl,
    (deleteEntry_removes_exactly_the_entry "a" true [] [sampleEntry "b"]
      (sampleEntry "a") rfl (by simp) (by decide)).1⟩

/-- C6: with a reachable remote echoing back `saved` (its assigned id
included), `createEntry` returns `saved` and the mirror afterwards is
the old mirror contents read back, with `saved` appended, written
whole. -/
theorem createEntry_online_appends_remote_entry
    (entry : EntryInput) (saved : JournalEntry) (now : Nat) (m : Mirror) :
    createEntry entry (some saved) now false false m =
      Except.ok (saved, some (getLocalEntries m ++ [saved])) :=
  rfl

/-- C7: with the remote unreachable, importing `xs` and then listing
returns exactly `xs`, same order and content, and leaves the mirror
holding `xs`. -/
theorem import_then_list_roundtrip (xs : List JournalEntry) (s : Store) :
    getEntries none (importEntries xs s).mirror = (xs, some xs) :=
  rfl

/-- C8: `importEntries` overwrites the mirror with the given collection
unconditionally and leaves the remote store untouched. -/
theorem importEntries_overwrites_mirror_only
    (xs : List JournalEntry) (s : Store) :
    (importEntries xs s).mirror = some xs ∧
    (importEntries xs s).remote = s.remote :=
  ⟨rfl, rfl⟩

/-- C9: when the remote create succeeds with `saved` but the following
mirror write throws, control falls into the `catch` and
`createLocalEntry` runs: the caller gets a freshly minted local-origin
entry instead of `saved`, the mirror gets that local entry appended
(not `saved`), and — whenever `saved`'s remote id differs from the
minted one — the entry now lives under two different ids, one on the
remote and one in the mirror. -/
theorem createEntry_remote_ok_write_fail_mints_local
    (entry : EntryInput) (saved : JournalEntry) (now : Nat) (m : Mirror)
    (h : saved.id ≠ localIdMarker ++ toString now) :
    createEntry entry (some saved) now true false m =
      Except.ok (mkEntry entry (localIdMarker ++ toString now),
        some (getLocalEntries m ++
          [mkEntry entry (localIdMarker ++ toString now)])) ∧
    (mkEntry entry (localIdMarker ++ toString now)).id ≠ saved.id :=
  ⟨rfl, Ne.symm h⟩

/-- Witness for C9 at a remote-issued id `42` and `Date.now() = 0`. -/
theorem createEntry_remote_ok_write_fail_mints_local_witness :
    (sampleEntry "42").id ≠ localIdMarker ++ toString 0 ∧
    (createEntry sampleInput (some (sampleEntry "42")) 0 true false none =
      Except.ok (mkEntry sampleInput (localIdMarker ++ toString 0),
        some (getLocalEntries none ++
          [mkEntry sampleInput (localIdMarker ++ toString 0)])) ∧
    (mkEntry sampleInput (localIdMarker ++ toString 0)).id ≠
      (sampleEntry "42").id) :=
  ⟨by decide,
    createEntry_remote_ok_write_fail_mints_local sampleInput
      (sampleEntry "42") 0 none (by decide)⟩

/-- C10: on either remote outcome `deleteEntry` leaves the mirror
holding exactly the old entries whose id differs from `id` — so every
duplicate sharing `id` disappears in the one call; both branches run
the identical filter; and `importEntries` stores any collection
verbatim, duplicate ids included, which is how such mirrors arise. -/
theorem deleteEntry_removes_every_duplicate
    (id : String) (r : Bool) (m : Mirror) :
    (∀ e, e ∈ getLocalEntries (deleteEntry id r m) ↔
      e ∈ getLocalEntries m ∧ e.id ≠ id) ∧
    deleteEntry id true m = deleteEntry id false m ∧
    (∀ xs s, getLocalEntries (importEntries xs s).mirror = xs) := by
  refine ⟨?mem, rfl, fun xs s => rfl⟩
  intro e
  cases r <;>
    simp [deleteEntry, deleteLocalEntry, getLocalEntries,
      List.mem_filter, bne_iff_ne]

end Wandurlust
